import Mathlib

/-!
Shallow embedding of the idle-detection core of `gpumon.py` and `cpumon.py`
(gpumon-oci).  Per-core CPU percentages, GPU percentages and their averages
are embedded as rationals; elapsed seconds, packet counts and the integer
thresholds as integers.  The main loop of each file is embedded as a pure
step function from the mutable loop state and one tick's sampled readings to
the next state together with the list of alert notifications emitted on that
tick.  Slack delivery (`send_slack`) is I/O glue outside the core: a
notification here is the construction-and-send of the transition message,
whether or not a webhook URL is configured.
-/

namespace GpumonOci

/-- `CACHE_DURATION = 300` — seconds of per-core CPU samples to keep
(both files). -/
def CACHE_DURATION : ℕ := 300

/-- `SLEEP_INTERVAL = 10` in cpumon.py; `sleep_interval = 10` in gpumon.py. -/
def SLEEP_INTERVAL : ℕ := 10

/-- cpumon.py line 164: `window_samples = max(1, int(CACHE_DURATION / SLEEP_INTERVAL))`. -/
def cpumonWindowSamples : ℕ := max 1 (CACHE_DURATION / SLEEP_INTERVAL)

/-- gpumon.py line 384 truncates each core cache to `c[-int(CACHE_DURATION/1):]`:
the divisor is the literal `1`, not the sleep interval. -/
def gpumonWindowSamples : ℕ := CACHE_DURATION / 1

/-- Python `l[-n:]` for `n ≥ 1`: the last `min n l.length` elements of `l`. -/
def lastN (n : ℕ) (l : List ℚ) : List ℚ := l.drop (l.length - n)

/-- The append loop of cpumon.py lines 162-163 / gpumon.py lines 382-383:
`core_utilization_cache[i].append(per_core[i])` for each core.  The sample
always has one entry per cache list (`psutil.cpu_percent(percpu=True)`
returns one value per logical core). -/
def appendSamples (cache : List (List ℚ)) (per_core : List ℚ) : List (List ℚ) :=
  List.zipWith (fun c u => c ++ [u]) cache per_core

/-- `calc_avg_core_utilization` (cpumon.py line 101) and
`calculate_average_core_utilization` (gpumon.py line 84):
`[sum(c)/len(c) if c else 0 for c in core_utilization_cache]`. -/
def calc_avg_core_utilization (cache : List (List ℚ)) : List ℚ :=
  cache.map (fun c => if c = [] then 0 else c.sum / (c.length : ℚ))

/-- cpumon.py line 168 / gpumon.py line 387:
`any(u > THRESHOLD_PERCENTAGE for u in avg_util)`. -/
def cpu_util_tripped_of (thr : ℚ) (avgs : List ℚ) : Bool :=
  avgs.any (fun u => decide (thr < u))

/-- The CPU-sampling block of one tick (cpumon.py lines 159-172, gpumon.py
lines 379-392): on a successful sample the per-core caches are appended to
and truncated to their last `cap` entries and the tripped flag is recomputed
from the fresh averages; when sampling raises, the caches are left unchanged
and the tripped flag keeps the `False` it was reset to at the top of the
loop. -/
def cpuSampleBlock (cap : ℕ) (thr : ℚ) (cache : List (List ℚ))
    (sample : Option (List ℚ)) : List (List ℚ) × Bool :=
  match sample with
  | some per_core =>
    let c2 := (appendSamples cache per_core).map (lastN cap)
    (c2, cpu_util_tripped_of thr (calc_avg_core_utilization c2))
  | none => (cache, false)

/-- Python 3 `round` to an integer: round to nearest, ties to even. -/
def pyRound (q : ℚ) : ℤ :=
  if Int.fract q < 1/2 then ⌊q⌋
  else if (1 : ℚ)/2 < Int.fract q then ⌊q⌋ + 1
  else if ⌊q⌋ % 2 = 0 then ⌊q⌋ else ⌊q⌋ + 1

/-- Python `int()` on a number: truncation toward zero. -/
def pyTrunc (q : ℚ) : ℤ := if 0 ≤ q then ⌊q⌋ else ⌈q⌉

/-- The four policy knobs bound in `main` (cpumon.py lines 135-142, gpumon.py
lines 343-354). -/
structure Thresholds where
  RESTART_BACKOFF : ℤ
  THRESHOLD_PERCENTAGE : ℚ
  GPU_THRESHOLD : ℤ
  NETWORK_THRESHOLD : ℤ
deriving DecidableEq

/-- `policy = freeform.get('GPUMON_POLICY', 'STANDARD')` (cpumon.py line 133,
gpumon.py line 336): a missing tag resolves to `"STANDARD"`. -/
def policyOf (tag : Option String) : String := tag.getD "STANDARD"

/-- The policy table (gpumon.py lines 343-354; cpumon.py lines 135-142 agrees
on the backoff, CPU and network knobs and has no GPU knob — gpumon.py sets
`GPU_THRESHOLD = 10` in both branches).  The test is `policy != 'SEVERE'`. -/
def policyKnobs (policy : String) : Thresholds :=
  if policy ≠ "SEVERE" then
    { RESTART_BACKOFF := 7200, THRESHOLD_PERCENTAGE := 10,
      GPU_THRESHOLD := 10, NETWORK_THRESHOLD := 10000 }
  else
    { RESTART_BACKOFF := 600, THRESHOLD_PERCENTAGE := 40,
      GPU_THRESHOLD := 10, NETWORK_THRESHOLD := 200000 }

/-- The mutable loop state shared by both files: the per-core sample caches,
`alarm_pilot_light` and the `network_tripped` latch. -/
structure MonState where
  core_utilization_cache : List (List ℚ)
  alarm_pilot_light : ℕ
  network_tripped : ℕ
deriving DecidableEq

/-- The two alert transition messages (`TURNED ALARM PILOT LIGHT: ON` /
`... OFF`). -/
inductive Notif
  | turnedOn
  | turnedOff
deriving DecidableEq

/-- One tick's sampled readings in gpumon.py: the per-core CPU percentages
(`none` when `get_per_core_cpu_utilization` raises), the per-device GPU
utilizations returned by `getUtilization` (a failed NVML read contributes the
dummy 0.0), the rounded seconds since boot, and the network packet figure. -/
structure GpuTick where
  cpuSample : Option (List ℚ)
  gpuUtils : List ℚ
  seconds : ℤ
  network : ℤ
deriving DecidableEq

/-- One tick's sampled readings in cpumon.py (no GPU; the network figure is
the hard-coded placeholder, see `network_last`). -/
structure CpuTick where
  cpuSample : Option (List ℚ)
  seconds : ℤ
deriving DecidableEq

/-- `core_utilization_cache = [[] for _ in range(psutil.cpu_count())]` with
`alarm_pilot_light = 0` and `network_tripped = 0` at loop entry. -/
def initState (ncores : ℕ) : MonState :=
  ⟨List.replicate ncores [], 0, 0⟩

/-- gpumon.py lines 395-403: GPU utilizations summed over all devices, then
`average_gpu_util = total/deviceCount if deviceCount > 0 else 0.0`. -/
def average_gpu_util (gpuUtils : List ℚ) : ℚ :=
  if 0 < gpuUtils.length then gpuUtils.sum / (gpuUtils.length : ℚ) else 0

/-- gpumon.py lines 409-410 / cpumon.py lines 179-180:
`if network_tripped == 0 and network <= NETWORK_THRESHOLD: network_tripped = 1`. -/
def network_tripped_update (k : Thresholds) (nt : ℕ) (network : ℤ) : ℕ :=
  if nt = 0 ∧ network ≤ k.NETWORK_THRESHOLD then 1 else nt

/-- The branch condition of gpumon.py line 414:
`round(average_gpu_util) <= GPU_THRESHOLD and not cpu_util_tripped and
network <= NETWORK_THRESHOLD`. -/
def gpumonIdleCondition (k : Thresholds) (tripped : Bool) (avgGpu : ℚ)
    (network : ℤ) : Bool :=
  decide (pyRound avgGpu ≤ k.GPU_THRESHOLD) && !tripped
    && decide (network ≤ k.NETWORK_THRESHOLD)

/-- One iteration of gpumon.py's main loop (lines 377-430) as a pure function:
CPU sampling block, GPU averaging, the `network_tripped` latch, then the
pilot-light logic — below the backoff gate the light is forced to 0 with no
message; at or above it, an idle tick turns the light on (with one ON
message) only from 0, and a busy tick turns it off (with one OFF message)
only from 1. -/
def gpumonStep (k : Thresholds) (s : MonState) (t : GpuTick) :
    MonState × List Notif :=
  let p := cpuSampleBlock gpumonWindowSamples k.THRESHOLD_PERCENTAGE
    s.core_utilization_cache t.cpuSample
  let avgGpu := average_gpu_util t.gpuUtils
  let nt := network_tripped_update k s.network_tripped t.network
  if k.RESTART_BACKOFF ≤ t.seconds then
    if gpumonIdleCondition k p.2 avgGpu t.network then
      if s.alarm_pilot_light = 0 then
        (⟨p.1, 1, nt⟩, [Notif.turnedOn])
      else
        (⟨p.1, s.alarm_pilot_light, nt⟩, [])
    else
      if s.alarm_pilot_light = 1 then
        (⟨p.1, 0, nt⟩, [Notif.turnedOff])
      else
        (⟨p.1, s.alarm_pilot_light, nt⟩, [])
  else
    (⟨p.1, 0, nt⟩, [])

/-- cpumon.py line 178: `network_last = 50` — the placeholder network reading
used on every tick. -/
def network_last : ℤ := 50

/-- The branch condition of cpumon.py line 183:
`not cpu_util_tripped and network_last <= NETWORK_THRESHOLD` — no GPU term. -/
def cpumonIdleCondition (k : Thresholds) (tripped : Bool) (network : ℤ) : Bool :=
  !tripped && decide (network ≤ k.NETWORK_THRESHOLD)

/-- One iteration of cpumon.py's main loop (lines 158-199) as a pure
function; identical hysteresis to `gpumonStep` but with the 30-sample window
truncation, no GPU sub-verdict and the constant `network_last` reading. -/
def cpumonStep (k : Thresholds) (s : MonState) (t : CpuTick) :
    MonState × List Notif :=
  let p := cpuSampleBlock cpumonWindowSamples k.THRESHOLD_PERCENTAGE
    s.core_utilization_cache t.cpuSample
  let nt := network_tripped_update k s.network_tripped network_last
  if k.RESTART_BACKOFF ≤ t.seconds then
    if cpumonIdleCondition k p.2 network_last then
      if s.alarm_pilot_light = 0 then
        (⟨p.1, 1, nt⟩, [Notif.turnedOn])
      else
        (⟨p.1, s.alarm_pilot_light, nt⟩, [])
    else
      if s.alarm_pilot_light = 1 then
        (⟨p.1, 0, nt⟩, [Notif.turnedOff])
      else
        (⟨p.1, s.alarm_pilot_light, nt⟩, [])
  else
    (⟨p.1, 0, nt⟩, [])

/-- Iterating gpumon.py's loop over a list of ticks, collecting every emitted
notification in order. -/
def runGpumon (k : Thresholds) (s : MonState) : List GpuTick → MonState × List Notif
  | [] => (s, [])
  | t :: rest =>
    let r := gpumonStep k s t
    let r2 := runGpumon k r.1 rest
    (r2.1, r.2 ++ r2.2)

/-- Iterating cpumon.py's loop over a list of ticks. -/
def runCpumon (k : Thresholds) (s : MonState) : List CpuTick → MonState × List Notif
  | [] => (s, [])
  | t :: rest =>
    let r := cpumonStep k s t
    let r2 := runCpumon k r.1 rest
    (r2.1, r.2 ++ r2.2)

/-- Along a run of gpumon ticks from state `s`, every tick passes the backoff
gate and its freshly computed composite idle condition is true. -/
def gpumonAllIdle (k : Thresholds) (s : MonState) : List GpuTick → Bool
  | [] => true
  | t :: rest =>
    (decide (k.RESTART_BACKOFF ≤ t.seconds)
      && gpumonIdleCondition k
        (cpuSampleBlock gpumonWindowSamples k.THRESHOLD_PERCENTAGE
          s.core_utilization_cache t.cpuSample).2
        (average_gpu_util t.gpuUtils) t.network)
      && gpumonAllIdle k (gpumonStep k s t).1 rest

/-- gpumon.py lines 220-279, `oci_sum_packets_last_5m`: for each of the two
VNIC packet metrics and each attached VNIC, the OCI Monitoring response
carries a list of series, each a list of datapoint values; every value is
added to `total` and `int(total)` is returned.  An empty `vnic_ids`
short-circuits to 0.  No difference of newest and oldest counter values is
taken and no clamping to zero is performed anywhere in the function. -/
def oci_sum_packets_last_5m (vnic_ids : List String)
    (resp : String → String → List (List ℚ)) : ℤ :=
  if vnic_ids = [] then 0
  else
    pyTrunc ((["VnicFromNetworkPackets", "VnicToNetworkPackets"].map
      (fun m => (vnic_ids.map
        (fun vid => ((resp m vid).map List.sum).sum)).sum)).sum)

/-- Spec §4.2, stated from the spec's words for comparison with the source:
`is_network_idle(delta, threshold) := delta <= threshold`. -/
def spec_is_network_idle (delta thr : ℤ) : Bool := decide (delta ≤ thr)

/-- Spec §4.2, stated from the spec's words for comparison with the source:
`is_gpu_idle(avg_gpu, threshold) := round(avg_gpu) <= threshold`. -/
def spec_is_gpu_idle (avg : ℚ) (thr : ℤ) : Bool := decide (pyRound avg ≤ thr)

/-- Spec §4.1, stated from the spec's words for comparison with the source:
`delta(window)` on a time-stamped counter window returns
`newest.value - oldest.value` clamped to ≥ 0.  The source has no such
computation; this definition exists only to state what the claim demands. -/
def spec_delta (window : List (ℤ × ℤ)) : ℤ :=
  max 0 (((window.getLast?).map Prod.snd).getD 0
    - ((window.head?).map Prod.snd).getD 0)

/-! Helper lemmas about the step functions and the rounding helpers. -/

lemma pyRound_nearest (q : ℚ) : |q - (pyRound q : ℚ)| ≤ 1/2 := by
  have hq : (⌊q⌋ : ℚ) + Int.fract q = q := Int.floor_add_fract q
  have h0 : 0 ≤ Int.fract q := Int.fract_nonneg q
  have h1 : Int.fract q < 1 := Int.fract_lt_one q
  unfold pyRound
  split
  · next hlt =>
    rw [abs_le]
    constructor <;> linarith
  · next hge =>
    split
    · next hgt =>
      push_cast
      rw [abs_le]
      constructor <;> linarith
    · next hng =>
      have heq : Int.fract q = 1/2 :=
        le_antisymm (not_lt.mp hng) (not_lt.mp hge)
      split
      · rw [abs_le]
        constructor <;> linarith
      · push_cast
        rw [abs_le]
        constructor <;> linarith

lemma pyRound_zero : pyRound 0 = 0 := by
  unfold pyRound
  rw [Int.fract_zero]
  norm_num

lemma pyTrunc_nonneg {q : ℚ} (h : 0 ≤ q) : 0 ≤ pyTrunc q := by
  unfold pyTrunc
  rw [if_pos h]
  exact Int.le_floor.mpr (by exact_mod_cast h)

lemma gpumonIdleCondition_eq (k : Thresholds) (tr : Bool) (g : ℚ) (n : ℤ) :
    gpumonIdleCondition k tr g n =
      ((!tr) && spec_is_gpu_idle g k.GPU_THRESHOLD
        && spec_is_network_idle n k.NETWORK_THRESHOLD) := by
  cases tr <;>
    simp [gpumonIdleCondition, spec_is_gpu_idle, spec_is_network_idle,
      Bool.and_comm, Bool.and_assoc, Bool.and_left_comm]

lemma cpumonIdleCondition_eq (k : Thresholds) (tr : Bool) (n : ℤ) :
    cpumonIdleCondition k tr n =
      ((!tr) && spec_is_network_idle n k.NETWORK_THRESHOLD) := rfl

lemma gpumonStep_gate {k : Thresholds} {s : MonState} {t : GpuTick}
    (h : (gpumonStep k s t).1.alarm_pilot_light = 1) :
    k.RESTART_BACKOFF ≤ t.seconds := by
  by_cases hg : k.RESTART_BACKOFF ≤ t.seconds
  · exact hg
  · unfold gpumonStep at h
    simp [hg] at h

lemma gpumonStep_forced_off {k : Thresholds} {s : MonState} {t : GpuTick}
    (hg : t.seconds < k.RESTART_BACKOFF) :
    (gpumonStep k s t).1.alarm_pilot_light = 0 ∧ (gpumonStep k s t).2 = [] := by
  unfold gpumonStep
  simp [not_le.mpr hg]

lemma gpumonStep_fires {k : Thresholds} {s : MonState} {t : GpuTick}
    (h0 : s.alarm_pilot_light = 0) (hg : k.RESTART_BACKOFF ≤ t.seconds)
    (hi : gpumonIdleCondition k
      (cpuSampleBlock gpumonWindowSamples k.THRESHOLD_PERCENTAGE
        s.core_utilization_cache t.cpuSample).2
      (average_gpu_util t.gpuUtils) t.network = true) :
    (gpumonStep k s t).1.alarm_pilot_light = 1 ∧
      (gpumonStep k s t).2 = [Notif.turnedOn] := by
  unfold gpumonStep
  simp [hg, hi, h0]

lemma gpumonStep_stays_on {k : Thresholds} {s : MonState} {t : GpuTick}
    (h1 : s.alarm_pilot_light = 1) (hg : k.RESTART_BACKOFF ≤ t.seconds)
    (hi : gpumonIdleCondition k
      (cpuSampleBlock gpumonWindowSamples k.THRESHOLD_PERCENTAGE
        s.core_utilization_cache t.cpuSample).2
      (average_gpu_util t.gpuUtils) t.network = true) :
    (gpumonStep k s t).1.alarm_pilot_light = 1 ∧
      (gpumonStep k s t).2 = [] := by
  unfold gpumonStep
  simp [hg, hi, h1]

lemma gpumonStep_stays_off {k : Thresholds} {s : MonState} {t : GpuTick}
    (h0 : s.alarm_pilot_light = 0) (hg : k.RESTART_BACKOFF ≤ t.seconds)
    (hi : gpumonIdleCondition k
      (cpuSampleBlock gpumonWindowSamples k.THRESHOLD_PERCENTAGE
        s.core_utilization_cache t.cpuSample).2
      (average_gpu_util t.gpuUtils) t.network = false) :
    (gpumonStep k s t).1.alarm_pilot_light = 0 ∧
      (gpumonStep k s t).2 = [] := by
  unfold gpumonStep
  simp [hg, hi, h0]

lemma gpumonStep_turns_off {k : Thresholds} {s : MonState} {t : GpuTick}
    (h1 : s.alarm_pilot_light = 1) (hg : k.RESTART_BACKOFF ≤ t.seconds)
    (hi : gpumonIdleCondition k
      (cpuSampleBlock gpumonWindowSamples k.THRESHOLD_PERCENTAGE
        s.core_utilization_cache t.cpuSample).2
      (average_gpu_util t.gpuUtils) t.network = false) :
    (gpumonStep k s t).1.alarm_pilot_light = 0 ∧
      (gpumonStep k s t).2 = [Notif.turnedOff] := by
  unfold gpumonStep
  simp [hg, hi, h1]

lemma gpumonStep_nt (k : Thresholds) (s : MonState) (t : GpuTick) :
    (gpumonStep k s t).1.network_tripped =
      network_tripped_update k s.network_tripped t.network := by
  simp only [gpumonStep]
  split_ifs <;> rfl

lemma cpumonStep_gate {k : Thresholds} {s : MonState} {t : CpuTick}
    (h : (cpumonStep k s t).1.alarm_pilot_light = 1) :
    k.RESTART_BACKOFF ≤ t.seconds := by
  by_cases hg : k.RESTART_BACKOFF ≤ t.seconds
  · exact hg
  · unfold cpumonStep at h
    simp [hg] at h

lemma cpumonStep_fires {k : Thresholds} {s : MonState} {t : CpuTick}
    (h0 : s.alarm_pilot_light = 0) (hg : k.RESTART_BACKOFF ≤ t.seconds)
    (hi : cpumonIdleCondition k
      (cpuSampleBlock cpumonWindowSamples k.THRESHOLD_PERCENTAGE
        s.core_utilization_cache t.cpuSample).2 network_last = true) :
    (cpumonStep k s t).1.alarm_pilot_light = 1 ∧
      (cpumonStep k s t).2 = [Notif.turnedOn] := by
  unfold cpumonStep
  simp [hg, hi, h0]

lemma cpumonStep_stays_off {k : Thresholds} {s : MonState} {t : CpuTick}
    (h0 : s.alarm_pilot_light = 0) (hg : k.RESTART_BACKOFF ≤ t.seconds)
    (hi : cpumonIdleCondition k
      (cpuSampleBlock cpumonWindowSamples k.THRESHOLD_PERCENTAGE
        s.core_utilization_cache t.cpuSample).2 network_last = false) :
    (cpumonStep k s t).1.alarm_pilot_light = 0 ∧
      (cpumonStep k s t).2 = [] := by
  unfold cpumonStep
  simp [hg, hi, h0]

lemma runGpumon_on_idle (k : Thresholds) :
    ∀ (ts : List GpuTick) (s : MonState), s.alarm_pilot_light = 1 →
      gpumonAllIdle k s ts = true →
      (runGpumon k s ts).1.alarm_pilot_light = 1 ∧ (runGpumon k s ts).2 = []
  | [], s, h1, _ => by simpa [runGpumon] using h1
  | t :: rest, s, h1, hidle => by
    rw [gpumonAllIdle] at hidle
    simp only [Bool.and_eq_true, decide_eq_true_eq] at hidle
    obtain ⟨⟨hg, hi⟩, hrest⟩ := hidle
    have hstep := gpumonStep_stays_on h1 hg hi
    have hrec := runGpumon_on_idle k rest (gpumonStep k s t).1 hstep.1 hrest
    rw [runGpumon]
    exact ⟨hrec.1, by simp [hstep.2, hrec.2]⟩

/-! Claim theorems. -/

/-- C1.  The claimed window invariant (capacity = duration/interval = 30
samples per core) holds in cpumon.py but fails in gpumon.py, whose
truncation divisor is the literal 1 (`c[-int(CACHE_DURATION/1):]`, i.e. a
300-sample cap): after 31 identical pushes through the actual loop step,
gpumon.py's core window holds 31 samples while cpumon.py's holds the most
recent 30. -/
theorem C1_window_capacity :
    ((runGpumon (policyKnobs "STANDARD") (initState 1)
      (List.replicate 31 ⟨some [0], [], 0, 0⟩)).1.core_utilization_cache.map
      List.length) = [31] ∧
    ((runCpumon (policyKnobs "STANDARD") (initState 1)
      (List.replicate 31 ⟨some [0], 0⟩)).1.core_utilization_cache.map
      List.length) = [30] ∧
    gpumonWindowSamples = 300 ∧
    CACHE_DURATION / SLEEP_INTERVAL = 30 := by
  refine ⟨?_, ?_, ?_, ?_⟩ <;> with_unfolding_all decide

/-- C2 counterexample.  On a tick where CPU sampling raised an error
(`cpuSample = none`) and no GPU is present, the composite verdict is
nevertheless true and the pilot light turns ON: the missing CPU signal
defaulted to "idle", not "busy", contradicting the claim. -/
theorem C2_counterexample :
    (gpumonStep (policyKnobs "STANDARD") (initState 1)
      ⟨none, [], 7200, 0⟩).1.alarm_pilot_light = 1 ∧
    (gpumonStep (policyKnobs "STANDARD") (initState 1)
      ⟨none, [], 7200, 0⟩).2 = [Notif.turnedOn] := by
  with_unfolding_all decide

/-- C2 (amended).  On a tick whose CPU sampling raised an error, the tripped
flag is left False — the missing mandatory signal defaults to "idle", never
to "busy" — and an empty per-core window likewise yields the defined average
0 which counts as idle; consequently (given an idle network and no GPU
devices) the composite verdict is true and the OFF→ON transition fires on
account of the absent signal. -/
theorem C2_missing_cpu_defaults_idle (k : Thresholds) (s : MonState)
    (t : GpuTick) (hs : t.cpuSample = none) :
    (cpuSampleBlock gpumonWindowSamples k.THRESHOLD_PERCENTAGE
      s.core_utilization_cache t.cpuSample).2 = false ∧
    (∀ n : ℕ, calc_avg_core_utilization (List.replicate n []) =
      List.replicate n 0) ∧
    (s.alarm_pilot_light = 0 → k.RESTART_BACKOFF ≤ t.seconds →
      t.gpuUtils = [] → 0 ≤ k.GPU_THRESHOLD →
      t.network ≤ k.NETWORK_THRESHOLD →
      (gpumonStep k s t).1.alarm_pilot_light = 1 ∧
      (gpumonStep k s t).2 = [Notif.turnedOn]) := by
  have htr : (cpuSampleBlock gpumonWindowSamples k.THRESHOLD_PERCENTAGE
      s.core_utilization_cache t.cpuSample).2 = false := by
    rw [hs, cpuSampleBlock]
  refine ⟨htr, ?_, ?_⟩
  · intro n
    simp [calc_avg_core_utilization, List.map_replicate]
  · intro h0 hg hGpu hGe hn
    apply gpumonStep_fires h0 hg
    rw [htr, hGpu]
    simp only [gpumonIdleCondition, average_gpu_util, List.length_nil,
      lt_irrefl, if_false, pyRound_zero, Bool.not_false, Bool.and_true,
      Bool.true_and, Bool.and_eq_true, decide_eq_true_eq]
    exact ⟨hGe, hn⟩

/-- C2 witness: a failed CPU sampling tick well above the backoff with an
idle network and no GPU devices fires the OFF→ON transition. -/
theorem C2_missing_cpu_witness :
    (gpumonStep ⟨7200, 10, 10, 10000⟩ (initState 2)
      ⟨none, [], 9000, 3⟩).1.alarm_pilot_light = 1 ∧
    (gpumonStep ⟨7200, 10, 10, 10000⟩ (initState 2)
      ⟨none, [], 9000, 3⟩).2 = [Notif.turnedOn] := by
  exact (C2_missing_cpu_defaults_idle ⟨7200, 10, 10, 10000⟩ (initState 2)
    ⟨none, [], 9000, 3⟩ rfl).2.2 rfl (by norm_num) rfl (by norm_num)
    (by norm_num)

/-- C3.  The backoff gate: in both programs the pilot light can be 1 after a
tick only if that tick's elapsed seconds reached `RESTART_BACKOFF`; one
second below the backoff the state is forced OFF even on a fully idle
verdict; and at exactly the backoff, a fully idle verdict from OFF fires the
OFF→ON transition with its single ON notification. -/
theorem C3_backoff_gate :
    (∀ (k : Thresholds) (s : MonState) (t : GpuTick),
      (gpumonStep k s t).1.alarm_pilot_light = 1 →
      k.RESTART_BACKOFF ≤ t.seconds) ∧
    (∀ (k : Thresholds) (s : MonState) (t : CpuTick),
      (cpumonStep k s t).1.alarm_pilot_light = 1 →
      k.RESTART_BACKOFF ≤ t.seconds) ∧
    (∀ (k : Thresholds) (s : MonState) (t : GpuTick),
      t.seconds = k.RESTART_BACKOFF - 1 →
      gpumonIdleCondition k
        (cpuSampleBlock gpumonWindowSamples k.THRESHOLD_PERCENTAGE
          s.core_utilization_cache t.cpuSample).2
        (average_gpu_util t.gpuUtils) t.network = true →
      (gpumonStep k s t).1.alarm_pilot_light = 0) ∧
    (∀ (k : Thresholds) (s : MonState) (t : GpuTick),
      s.alarm_pilot_light = 0 → t.seconds = k.RESTART_BACKOFF →
      gpumonIdleCondition k
        (cpuSampleBlock gpumonWindowSamples k.THRESHOLD_PERCENTAGE
          s.core_utilization_cache t.cpuSample).2
        (average_gpu_util t.gpuUtils) t.network = true →
      (gpumonStep k s t).1.alarm_pilot_light = 1 ∧
      (gpumonStep k s t).2 = [Notif.turnedOn]) := by
  refine ⟨?_, ?_, ?_, ?_⟩
  · intro k s t h
    exact gpumonStep_gate h
  · intro k s t h
    exact cpumonStep_gate h
  · intro k s t hsec _
    exact (gpumonStep_forced_off (by omega)).1
  · intro k s t h0 hsec hi
    exact gpumonStep_fires h0 (by omega) hi

/-- C3 witness: at exactly the standard backoff (7200 s), an idle tick from
OFF turns the light on with one ON notification. -/
theorem C3_backoff_gate_witness :
    (gpumonStep ⟨7200, 10, 10, 10000⟩ (initState 1)
      ⟨some [1], [2], 7200, 40⟩).1.alarm_pilot_light = 1 ∧
    (gpumonStep ⟨7200, 10, 10, 10000⟩ (initState 1)
      ⟨some [1], [2], 7200, 40⟩).2 = [Notif.turnedOn] := by
  exact C3_backoff_gate.2.2.2 ⟨7200, 10, 10, 10000⟩ (initState 1)
    ⟨some [1], [2], 7200, 40⟩ rfl rfl (by with_unfolding_all decide)

/-- C4 counterexample.  With the state ON and the elapsed seconds one below
the backoff, the step forces the light OFF but emits no notification — the
claim's "exactly one turned OFF notification (including the case where the
transition is caused solely by elapsed_seconds dropping below backoff)" is
false on the code. -/
theorem C4_counterexample :
    (gpumonStep (policyKnobs "STANDARD") ⟨[[]], 1, 1⟩
      ⟨some [0], [], 7199, 0⟩).1.alarm_pilot_light = 0 ∧
    (gpumonStep (policyKnobs "STANDARD") ⟨[[]], 1, 1⟩
      ⟨some [0], [], 7199, 0⟩).2 = [] := by
  with_unfolding_all decide

/-- C4 (amended).  From state ON, a tick at or above the backoff whose
composite idle condition is false transitions ON→OFF and emits exactly one
"turned OFF" notification; a tick below the backoff silently forces the
state OFF and emits no notification at all. -/
theorem C4_on_to_off (k : Thresholds) (s : MonState) (t : GpuTick)
    (h1 : s.alarm_pilot_light = 1) :
    (k.RESTART_BACKOFF ≤ t.seconds →
      gpumonIdleCondition k
        (cpuSampleBlock gpumonWindowSamples k.THRESHOLD_PERCENTAGE
          s.core_utilization_cache t.cpuSample).2
        (average_gpu_util t.gpuUtils) t.network = false →
      (gpumonStep k s t).1.alarm_pilot_light = 0 ∧
      (gpumonStep k s t).2 = [Notif.turnedOff]) ∧
    (t.seconds < k.RESTART_BACKOFF →
      (gpumonStep k s t).1.alarm_pilot_light = 0 ∧
      (gpumonStep k s t).2 = []) := by
  constructor
  · intro hg hi
    exact gpumonStep_turns_off h1 hg hi
  · intro hg
    exact gpumonStep_forced_off hg

/-- C4 witness: from ON with the gate passed and a busy CPU average, the
step emits exactly one OFF notification. -/
theorem C4_on_to_off_witness :
    (gpumonStep ⟨7200, 10, 10, 10000⟩ ⟨[[]], 1, 1⟩
      ⟨some [50], [], 7200, 0⟩).1.alarm_pilot_light = 0 ∧
    (gpumonStep ⟨7200, 10, 10, 10000⟩ ⟨[[]], 1, 1⟩
      ⟨some [50], [], 7200, 0⟩).2 = [Notif.turnedOff] := by
  exact (C4_on_to_off ⟨7200, 10, 10, 10000⟩ ⟨[[]], 1, 1⟩
    ⟨some [50], [], 7200, 0⟩ rfl).1 (by norm_num)
    (by with_unfolding_all decide)

/-- C5.  Hysteresis idempotence: over any non-empty run of ticks each of
which passes the backoff gate and computes a true composite idle condition,
starting from state OFF, exactly one notification is emitted in total — the
initial OFF→ON — and the repeated idle ticks while ON never re-notify. -/
theorem C5_hysteresis_single_notification (k : Thresholds) (s : MonState)
    (ts : List GpuTick) (h0 : s.alarm_pilot_light = 0) (hne : ts ≠ [])
    (hidle : gpumonAllIdle k s ts = true) :
    (runGpumon k s ts).2 = [Notif.turnedOn] := by
  match ts, hne with
  | t :: rest, _ =>
    rw [gpumonAllIdle] at hidle
    simp only [Bool.and_eq_true, decide_eq_true_eq] at hidle
    obtain ⟨⟨hg, hi⟩, hrest⟩ := hidle
    have hstep := gpumonStep_fires h0 hg hi
    have hrec := runGpumon_on_idle k rest (gpumonStep k s t).1 hstep.1 hrest
    rw [runGpumon]
    simp [hstep.2, hrec.2]

/-- C5 witness: three consecutive idle ticks above the backoff, from OFF,
emit exactly the single ON notification. -/
theorem C5_hysteresis_witness :
    (runGpumon ⟨7200, 10, 10, 10000⟩ (initState 1)
      (List.replicate 3 ⟨some [0], [0], 7200, 0⟩)).2 = [Notif.turnedOn] := by
  exact C5_hysteresis_single_notification ⟨7200, 10, 10, 10000⟩ (initState 1)
    (List.replicate 3 ⟨some [0], [0], 7200, 0⟩) rfl
    (by with_unfolding_all decide) (by with_unfolding_all decide)

/-- C6.  The CPU idle verdict (the negation of the tripped flag computed
from `any(u > THRESHOLD for u in avg_util)`) is true iff every per-core
average is at or below the threshold; an average exactly equal to the
threshold counts as idle; and the verdict is false whenever some core (in
particular exactly one) exceeds the threshold. -/
theorem C6_cpu_idle_iff_all_below (thr : ℚ) (avgs : List ℚ)
    (hne : avgs ≠ []) :
    ((!cpu_util_tripped_of thr avgs) = true ↔ ∀ u ∈ avgs, u ≤ thr) ∧
    (∀ n : ℕ, (!cpu_util_tripped_of thr (List.replicate (n + 1) thr)) = true) ∧
    (∀ pre post u, avgs = pre ++ u :: post → thr < u →
      (!cpu_util_tripped_of thr avgs) = false) := by
  refine ⟨?_, ?_, ?_⟩
  · simp [cpu_util_tripped_of, List.any_eq_true, not_lt]
  · intro n
    simp [cpu_util_tripped_of, List.any_eq_true, List.mem_replicate, not_lt]
  · intro pre post u hsplit hu
    have htr : cpu_util_tripped_of thr avgs = true := by
      simp only [cpu_util_tripped_of, List.any_eq_true, decide_eq_true_eq]
      exact ⟨u, by simp [hsplit], hu⟩
    simp [htr]

/-- C6 witness: with threshold 10 and per-core averages [2, 3, 1] the
verdict is true. -/
theorem C6_cpu_idle_witness :
    (!cpu_util_tripped_of 10 [2, 3, 1]) = true := by
  exact (C6_cpu_idle_iff_all_below 10 [2, 3, 1] (by decide)).1.mpr
    (by with_unfolding_all decide)

/-- C7.  From state OFF with the backoff gate passed, gpumon.py's step turns
the light on exactly when the conjunction of the CPU sub-verdict (not
tripped), the GPU sub-verdict `round(average_gpu_util) <= GPU_THRESHOLD`, and
the network sub-verdict `network <= NETWORK_THRESHOLD` holds; cpumon.py's
step uses the same conjunction with the GPU sub-verdict omitted.  The
rounding is to the nearest integer — within 1/2 of the average — and differs
from truncation (at 10.6 it gives 11 where truncation gives 10). -/
theorem C7_composite_verdict :
    (∀ (k : Thresholds) (s : MonState) (t : GpuTick),
      s.alarm_pilot_light = 0 → k.RESTART_BACKOFF ≤ t.seconds →
      ((gpumonStep k s t).1.alarm_pilot_light = 1 ↔
        ((!(cpuSampleBlock gpumonWindowSamples k.THRESHOLD_PERCENTAGE
            s.core_utilization_cache t.cpuSample).2)
          && spec_is_gpu_idle (average_gpu_util t.gpuUtils) k.GPU_THRESHOLD
          && spec_is_network_idle t.network k.NETWORK_THRESHOLD) = true)) ∧
    (∀ (k : Thresholds) (s : MonState) (t : CpuTick),
      s.alarm_pilot_light = 0 → k.RESTART_BACKOFF ≤ t.seconds →
      ((cpumonStep k s t).1.alarm_pilot_light = 1 ↔
        ((!(cpuSampleBlock cpumonWindowSamples k.THRESHOLD_PERCENTAGE
            s.core_utilization_cache t.cpuSample).2)
          && spec_is_network_idle network_last k.NETWORK_THRESHOLD) = true)) ∧
    (∀ q : ℚ, |q - (pyRound q : ℚ)| ≤ 1/2) ∧
    pyRound (53/5 : ℚ) = 11 ∧ pyTrunc (53/5 : ℚ) = 10 := by
  refine ⟨?_, ?_, pyRound_nearest, ?_, ?_⟩
  · intro k s t h0 hg
    rw [← gpumonIdleCondition_eq]
    constructor
    · intro h
      by_contra hcond
      have hi := Bool.eq_false_iff.mpr hcond
      have := (gpumonStep_stays_off h0 hg hi).1
      omega
    · intro hi
      exact (gpumonStep_fires h0 hg hi).1
  · intro k s t h0 hg
    rw [← cpumonIdleCondition_eq]
    constructor
    · intro h
      by_contra hcond
      have hi := Bool.eq_false_iff.mpr hcond
      have := (cpumonStep_stays_off h0 hg hi).1
      omega
    · intro hi
      exact (cpumonStep_fires h0 hg hi).1
  · with_unfolding_all decide
  · with_unfolding_all decide

/-- C7 witness: the spec's §8 scenario — averages [2, 3, 1], GPU average 0,
network 500, elapsed 7300 with the standard knobs — turns the light on. -/
theorem C7_composite_verdict_witness :
    (gpumonStep ⟨7200, 10, 10, 10000⟩ (initState 3)
      ⟨some [2, 3, 1], [0], 7300, 500⟩).1.alarm_pilot_light = 1 := by
  exact (C7_composite_verdict.1 ⟨7200, 10, 10, 10000⟩ (initState 3)
    ⟨some [2, 3, 1], [0], 7300, 500⟩ rfl (by norm_num)).mpr
    (by with_unfolding_all decide)

/-- C8 counterexample.  The spec's `delta` of the counter window
`[(t0,100),(t1,90)]` is 0, but the source's network figure over those two
datapoint values is their sum, 190, not 0: the source takes no
newest-minus-oldest difference and performs no clamping. -/
theorem C8_counterexample :
    spec_delta [(0, 100), (1, 90)] = 0 ∧
    oci_sum_packets_last_5m ["vnic1"]
      (fun m _ => if m = "VnicFromNetworkPackets" then [[100, 90]] else [])
      = 190 ∧
    (190 : ℤ) ≠ 0 := by
  with_unfolding_all decide

/-- C8 (amended).  The network reading is not a clamped newest-minus-oldest
delta: `oci_sum_packets_last_5m` returns the truncated sum of every
datapoint value over the queried window (0 when no VNIC is attached), which
on the datapoints 100 and 90 is 190; the result is non-negative whenever
every datapoint value is non-negative, with no clamping involved. -/
theorem C8_network_reading (vnic_ids : List String)
    (resp : String → String → List (List ℚ))
    (h : ∀ m vid l, l ∈ resp m vid → ∀ q ∈ l, 0 ≤ q) :
    0 ≤ oci_sum_packets_last_5m vnic_ids resp ∧
    oci_sum_packets_last_5m ["vnic1"]
      (fun m _ => if m = "VnicFromNetworkPackets" then [[100, 90]] else [])
      = 190 := by
  constructor
  · unfold oci_sum_packets_last_5m
    split
    · exact le_refl 0
    · apply pyTrunc_nonneg
      apply List.sum_nonneg
      intro x hx
      simp only [List.mem_map] at hx
      obtain ⟨m, _, rfl⟩ := hx
      apply List.sum_nonneg
      intro y hy
      simp only [List.mem_map] at hy
      obtain ⟨vid, _, rfl⟩ := hy
      apply List.sum_nonneg
      intro z hz
      simp only [List.mem_map] at hz
      obtain ⟨l, hl, rfl⟩ := hz
      exact List.sum_nonneg (fun q hq => h m vid l hl q hq)
  · with_unfolding_all decide

/-- C8 witness: with one VNIC and the non-negative datapoints 1 and 2 the
network figure is non-negative. -/
theorem C8_network_reading_witness :
    0 ≤ oci_sum_packets_last_5m ["vnic1"] (fun _ _ => [[1, 2]]) := by
  refine (C8_network_reading ["vnic1"] (fun _ _ => [[1, 2]]) ?_).1
  intro m vid l hl q hq
  simp only [List.mem_singleton] at hl
  subst hl
  simp only [List.mem_cons, List.not_mem_nil, or_false] at hq
  rcases hq with rfl | rfl <;> norm_num

/-- C9.  The `network_tripped` latch starts at 0, is set to 1 on the first
tick whose network reading is at or below the network threshold (and not
before), is never cleared once set, and its value influences neither the
pilot light nor the notifications of any tick. -/
theorem C9_network_latch :
    (∀ n : ℕ, (initState n).network_tripped = 0) ∧
    (∀ (k : Thresholds) (s : MonState) (t : GpuTick),
      s.network_tripped = 0 → t.network ≤ k.NETWORK_THRESHOLD →
      (gpumonStep k s t).1.network_tripped = 1) ∧
    (∀ (k : Thresholds) (s : MonState) (t : GpuTick),
      s.network_tripped = 0 → k.NETWORK_THRESHOLD < t.network →
      (gpumonStep k s t).1.network_tripped = 0) ∧
    (∀ (k : Thresholds) (s : MonState) (t : GpuTick),
      s.network_tripped = 1 → (gpumonStep k s t).1.network_tripped = 1) ∧
    (∀ (k : Thresholds) (c : List (List ℚ)) (p a b : ℕ) (t : GpuTick),
      (gpumonStep k ⟨c, p, a⟩ t).1.alarm_pilot_light =
        (gpumonStep k ⟨c, p, b⟩ t).1.alarm_pilot_light ∧
      (gpumonStep k ⟨c, p, a⟩ t).2 = (gpumonStep k ⟨c, p, b⟩ t).2) := by
  refine ⟨fun _ => rfl, ?_, ?_, ?_, ?_⟩
  · intro k s t h0 hn
    rw [gpumonStep_nt, network_tripped_update, if_pos ⟨h0, hn⟩]
  · intro k s t h0 hn
    rw [gpumonStep_nt, network_tripped_update, if_neg (fun hc => absurd hc.2 (not_le.mpr hn)), h0]
  · intro k s t h1
    rw [gpumonStep_nt, network_tripped_update]
    split_ifs with hc
    · rfl
    · exact h1
  · intro k c p a b t
    simp only [gpumonStep]
    split_ifs <;> exact ⟨rfl, rfl⟩

/-- C9 witness: from a fresh state, a tick with network reading 5 at
standard thresholds sets the latch. -/
theorem C9_network_latch_witness :
    (gpumonStep ⟨7200, 10, 10, 10000⟩ (initState 1)
      ⟨some [0], [], 0, 5⟩).1.network_tripped = 1 := by
  exact C9_network_latch.2.1 ⟨7200, 10, 10, 10000⟩ (initState 1)
    ⟨some [0], [], 0, 5⟩ rfl (by norm_num)

/-- C10.  Policy resolution: every tag value other than the exact string
"SEVERE" — including the default "STANDARD" used for a missing tag and the
lowercase "severe" — selects the STANDARD knobs (backoff 7200, CPU 10,
network 10000), only "SEVERE" selects (600, 40, 200000), and the GPU
threshold is 10 under every policy string. -/
theorem C10_policy_resolution (policy : String) (h : policy ≠ "SEVERE") :
    policyKnobs policy =
      { RESTART_BACKOFF := 7200, THRESHOLD_PERCENTAGE := 10,
        GPU_THRESHOLD := 10, NETWORK_THRESHOLD := 10000 } ∧
    policyOf none = "STANDARD" ∧
    policyKnobs "severe" = policyKnobs "STANDARD" ∧
    policyKnobs "SEVERE" =
      { RESTART_BACKOFF := 600, THRESHOLD_PERCENTAGE := 40,
        GPU_THRESHOLD := 10, NETWORK_THRESHOLD := 200000 } ∧
    (∀ s : String, (policyKnobs s).GPU_THRESHOLD = 10) := by
  refine ⟨by simp [policyKnobs, h], rfl, by decide, by decide, ?_⟩
  intro s
  rw [policyKnobs]
  split_ifs <;> rfl

/-- C10 witness: a misspelled tag such as "Severe " resolves to the STANDARD
knobs. -/
theorem C10_policy_resolution_witness :
    policyKnobs "Severe " =
      { RESTART_BACKOFF := 7200, THRESHOLD_PERCENTAGE := 10,
        GPU_THRESHOLD := 10, NETWORK_THRESHOLD := 10000 } := by
  exact (C10_policy_resolution "Severe " (by decide)).1

end GpumonOci
